import Mathlib

/-!
Shallow embedding of the Sutter Lambda 10-3 filter wheel / shutter
controller driver (`sutter_Lambda_10_3_JLD.py`).

The embedding covers the startup configuration parsing
(`Controller.__init__`), the session state machine with its single
pending-command slot (`_finish_moving`), the public operations
(`move`, `change_shutter`, `set_shutter_mode`) and the channel
name/index translation (`n2c`, `c2n`).

The serial port is modelled inside `Sess`: `inBuf` holds the bytes that
have arrived and are unread, `respond` is the device model (the bytes
the device appends to `inBuf` in reaction to each write), and `events`
logs every read and write in order, so that statements about I/O order
and about "no I/O happened" can be made.  Errors are one constructor
per raise site of the Python source; since Python exceptions do not
roll back state, an operation returns either `MRes.ok s` or
`MRes.err e s` with `s` the session state at the moment of the raise.
-/

namespace Sutter

/-- One error value per raise site in the Python source:
the two length asserts on the configuration frame, the wheel-C assert,
the tag asserts, the wheel/shutter sub-type asserts, the RuntimeError
for no connected hardware, the ValueError of `n2c`/`c2n`, the generic
argument asserts, the IOError for a bad echo, the `in_waiting` assert,
and the IndexError of a Python list assignment out of range. -/
inductive Err
  | shutterCUnsupported
  | badLength
  | wheelCUnsupported
  | badTag
  | badWheelType
  | badShutterType
  | noHardware
  | invalidId
  | assertFailed
  | unexpectedResponse
  | residualBytes
  | indexError
  deriving DecidableEq, Repr

/-- A duck-typed Python argument: either a string or a number.
Channel identifiers are `"A"`/`"B"` or `0`/`1`; the shutter state
argument is `"closed"`/`"open"` or `0`/`1`. -/
inductive PIdent
  | istr (s : String)
  | inat (n : Nat)
  deriving DecidableEq, Repr

/-- A transport I/O event: one `port.read` (with the bytes obtained) or
one `port.write` (with the bytes written). -/
inductive Event
  | readEvt (bs : List Nat)
  | writeEvt (bs : List Nat)
  deriving DecidableEq, Repr

/-- Session state: the mutable fields of `Controller` plus the port
model.  `wheels`/`shutters` are the presence lists built at startup,
`pendingCmd` is `_pending_cmd`, `wheelTargetPositions` is the Python
list `wheel_target_positions` (indexed exactly as the source indexes
it), `inBuf` the arrived-and-unread bytes, `respond` the device's
reaction to written bytes, and `events` the I/O log. -/
structure Sess where
  wheels : List Nat
  shutters : List Nat
  pendingCmd : Option (List Nat)
  wheelTargetPositions : List Nat
  inBuf : List Nat
  respond : List Nat → List Nat
  events : List Event

/-- Result of an operation: success, or a raised error together with
the session state at the moment of the raise. -/
inductive MRes
  | ok (s : Sess)
  | err (e : Err) (s : Sess)

/-- Sequencing in the presence of raised errors. -/
def MRes.bind : MRes → (Sess → MRes) → MRes
  | .ok s, f => f s
  | .err e s, _ => .err e s

/-- `self.port.write(bs)`: the bytes are written, the device's response
arrives in the input buffer, and the write is logged. -/
def portWrite (bs : List Nat) (s : Sess) : Sess :=
  { s with inBuf := s.inBuf ++ s.respond bs
           events := s.events ++ [Event.writeEvt bs] }

/-- A well-behaved Lambda 10-3: every command is echoed back followed
by a carriage return (byte 13). -/
def echoDevice (bs : List Nat) : List Nat := bs ++ [13]

/-- `Controller.n2c`: a value already in `names_to_channels.values()`
(that is, `0` or `1`) is returned unchanged; a key (`"A"` or `"B"`) is
mapped to its channel; anything else raises ValueError. -/
def n2c (x : PIdent) : Except Err Nat :=
  match x with
  | .inat n => if n = 0 ∨ n = 1 then .ok n else .error .invalidId
  | .istr s =>
      if s = "A" then .ok 0
      else if s = "B" then .ok 1
      else .error .invalidId

/-- `Controller.c2n`: a value already in `channels_to_names.values()`
(that is, `"A"` or `"B"`) is returned unchanged; a key (`0` or `1`) is
mapped to its name; anything else raises ValueError. -/
def c2n (x : PIdent) : Except Err PIdent :=
  match x with
  | .istr s =>
      if s = "A" ∨ s = "B" then .ok (.istr s) else .error .invalidId
  | .inat n =>
      if n = 0 then .ok (.istr "A")
      else if n = 1 then .ok (.istr "B")
      else .error .invalidId

/-- `Controller._finish_moving`: no-op when `_pending_cmd is None`;
otherwise read `len(_pending_cmd)+1` bytes, raise IOError unless they
equal the pending command followed by a carriage return, then clear
the pending command and assert `port.in_waiting == 0`. -/
def finishMoving (s : Sess) : MRes :=
  match s.pendingCmd with
  | none => .ok s
  | some cmd =>
      let resp := s.inBuf.take (cmd.length + 1)
      let s1 : Sess := { s with inBuf := s.inBuf.drop (cmd.length + 1)
                                events := s.events ++ [Event.readEvt resp] }
      if resp = cmd ++ [13] then
        let s2 : Sess := { s1 with pendingCmd := none }
        if s2.inBuf.length = 0 then .ok s2 else .err .residualBytes s2
      else .err .unexpectedResponse s1

/-- `Controller.move(position, wheel, speed, block)`: translate and
check the wheel, force-complete any pending command, check position
and speed ranges, write the single command byte
`(wheel << 7) + (speed << 4) + position`, store it as pending, record
the target position (a Python list assignment, IndexError when the
channel is not a valid index of `wheel_target_positions`), and when
`block` force-complete. -/
def move (position : Nat) (wheel : PIdent) (speed : Nat) (block : Bool)
    (s : Sess) : MRes :=
  match n2c wheel with
  | .error e => .err e s
  | .ok w =>
      if w ∈ s.wheels then
        MRes.bind (if s.pendingCmd.isSome then finishMoving s else .ok s)
          (fun s =>
            if position < 10 then
              if speed < 8 then
                let cmd : List Nat := [(w <<< 7) + (speed <<< 4) + position]
                let s := portWrite cmd s
                let s : Sess := { s with pendingCmd := some cmd }
                if w < s.wheelTargetPositions.length then
                  let s : Sess := { s with wheelTargetPositions :=
                                      s.wheelTargetPositions.set w position }
                  if block then finishMoving s else .ok s
                else .err .indexError s
              else .err .assertFailed s
            else .err .assertFailed s)
      else .err .assertFailed s

/-- `Controller.change_shutter(state, shutter, block)`: translate and
check the shutter, check `state in ['closed', 'open', 0, 1]`,
force-complete any pending command, write
`128+32+(shutter<<4)+8+2` for open / `128+32+(shutter<<4)+8+4` for
closed, store it as pending, and when `block` force-complete.  (After
the membership assert the Python if/elif on `state` is exhaustive.) -/
def changeShutter (state : PIdent) (shutter : PIdent) (block : Bool)
    (s : Sess) : MRes :=
  match n2c shutter with
  | .error e => .err e s
  | .ok sh =>
      if sh ∈ s.shutters then
        if state = PIdent.istr "closed" ∨ state = PIdent.istr "open" ∨
            state = PIdent.inat 0 ∨ state = PIdent.inat 1 then
          MRes.bind (if s.pendingCmd.isSome then finishMoving s else .ok s)
            (fun s =>
              let cmd : List Nat :=
                if state = PIdent.istr "open" ∨ state = PIdent.inat 1 then
                  [128 + 32 + (sh <<< 4) + 8 + 2]
                else
                  [128 + 32 + (sh <<< 4) + 8 + 4]
              let s := portWrite cmd s
              let s : Sess := { s with pendingCmd := some cmd }
              if block then finishMoving s else .ok s)
        else .err .assertFailed s
      else .err .assertFailed s

/-- `Controller.set_shutter_mode(mode, shutter, block)`: translate and
check the shutter, check `mode in ['fast', 'soft']`, force-complete
any pending command, write the 2-byte command `[220, shutter+1]` for
fast / `[221, shutter+1]` for soft, store it as pending, and when
`block` force-complete. -/
def setShutterMode (mode : String) (shutter : PIdent) (block : Bool)
    (s : Sess) : MRes :=
  match n2c shutter with
  | .error e => .err e s
  | .ok sh =>
      if sh ∈ s.shutters then
        if mode = "fast" ∨ mode = "soft" then
          MRes.bind (if s.pendingCmd.isSome then finishMoving s else .ok s)
            (fun s =>
              let cmd : List Nat :=
                if mode = "fast" then [220, sh + 1] else [221, sh + 1]
              let s := portWrite cmd s
              let s : Sess := { s with pendingCmd := some cmd }
              if block then finishMoving s else .ok s)
        else .err .assertFailed s
      else .err .assertFailed s

/-- `Controller.__init__` from the point where the configuration line
has been read: the two length asserts (36 rejected as shutter-C, then
exactly 31 required), the five 5-character fields after the 5-byte
header, the wheel-C / tag / sub-type asserts, the presence lists
(`WA-25` / `WB-25` add wheels 0/1, `SA-IQ` / `SB-IQ` add shutters
0/1), the RuntimeError — raised, as in the source, only under
`verbose` — when nothing is connected, and the homing sequence: every
wheel moved to 0 and every shutter set to soft mode then closed.
An error during homing destroys the half-built session, so the result
is an `Except`. -/
def initController (configuration : List Char) (verbose : Bool)
    (inBuf : List Nat) (respond : List Nat → List Nat) :
    Except Err Sess :=
  if configuration.length = 36 then .error .shutterCUnsupported
  else if configuration.length ≠ 31 then .error .badLength
  else
    let config_s := configuration.drop 5
    let wa := config_s.take 5
    let wb := (config_s.drop 5).take 5
    let wc := (config_s.drop 10).take 5
    let sa := (config_s.drop 15).take 5
    let sb := (config_s.drop 20).take 5
    if wc ≠ "WC-NC".toList then .error .wheelCUnsupported
    else if ¬ (wa.take 3 = "WA-".toList ∧ wb.take 3 = "WB-".toList) then
      .error .badTag
    else if ¬ (sa.take 3 = "SA-".toList ∧ sb.take 3 = "SB-".toList) then
      .error .badTag
    else if ¬ (wa.drop 3 = "25".toList ∨ wa.drop 3 = "NC".toList) then
      .error .badWheelType
    else if ¬ (wb.drop 3 = "25".toList ∨ wb.drop 3 = "NC".toList) then
      .error .badWheelType
    else if ¬ (sa.drop 3 = "IQ".toList ∨ sa.drop 3 = "VS".toList) then
      .error .badShutterType
    else if ¬ (sb.drop 3 = "IQ".toList ∨ sb.drop 3 = "VS".toList) then
      .error .badShutterType
    else
      let wheels := (if wa = "WA-25".toList then [0] else []) ++
                    (if wb = "WB-25".toList then [1] else [])
      let shutters := (if sa = "SA-IQ".toList then [0] else []) ++
                      (if sb = "SB-IQ".toList then [1] else [])
      if verbose ∧ wheels = [] ∧ shutters = [] then .error .noHardware
      else
        let s0 : Sess :=
          { wheels := wheels
            shutters := shutters
            pendingCmd := none
            wheelTargetPositions := List.replicate wheels.length 0
            inBuf := inBuf
            respond := respond
            events := [] }
        let r1 := wheels.foldl
          (fun r w => MRes.bind r (fun s => move 0 (.inat w) 6 true s))
          (MRes.ok s0)
        let r2 := shutters.foldl
          (fun r sh => MRes.bind r (fun s =>
            MRes.bind (setShutterMode "soft" (.inat sh) true s)
              (fun s => changeShutter (.istr "closed") (.inat sh) true s)))
          r1
        match r2 with
        | .ok s => .ok s
        | .err e _ => .error e

/-! ### Helper lemmas -/

/-- `n2c` raises only the invalid-identifier error. -/
theorem n2c_error_eq (x : PIdent) (e : Err) (h : n2c x = .error e) :
    e = Err.invalidId := by
  cases x with
  | inat n =>
      simp only [n2c] at h
      by_cases hn : n = 0 ∨ n = 1
      · simp [hn] at h
      · rw [if_neg hn] at h
        injection h with h2
        exact h2.symm
  | istr s =>
      simp only [n2c] at h
      by_cases hA : s = "A"
      · simp [hA] at h
      · by_cases hB : s = "B"
        · simp [hA, hB] at h
        · rw [if_neg hA, if_neg hB] at h
          injection h with h2
          exact h2.symm

/-- A successfully translated channel index is 0 or 1. -/
theorem n2c_ok_lt (x : PIdent) (n : Nat) (h : n2c x = .ok n) : n < 2 := by
  cases x with
  | inat m =>
      simp only [n2c] at h
      by_cases hm : m = 0 ∨ m = 1
      · rw [if_pos hm] at h
        injection h with h2
        rcases hm with rfl | rfl <;> omega
      · rw [if_neg hm] at h
        exact absurd h (by simp)
  | istr s =>
      simp only [n2c] at h
      by_cases hA : s = "A"
      · rw [if_pos hA] at h
        injection h with h2
        omega
      · by_cases hB : s = "B"
        · rw [if_neg hA, if_pos hB] at h
          injection h with h2
          omega
        · rw [if_neg hA, if_neg hB] at h
          exact absurd h (by simp)

/-- Inversion for sequencing: a successful composite run has a
successful first stage. -/
theorem MRes.bind_ok_inv (r : MRes) (f : Sess → MRes) (s' : Sess)
    (h : MRes.bind r f = .ok s') : ∃ s1, r = .ok s1 ∧ f s1 = .ok s' := by
  cases r with
  | ok s1 => exact ⟨s1, rfl, h⟩
  | err e s1 => simp [MRes.bind] at h

/-- Inversion for a successful echo consumption: the bytes read were
the pending command plus a carriage return, and the state afterward
has the pending slot cleared, the echo consumed, and the read logged. -/
theorem finishMoving_ok_inv (s : Sess) (c : List Nat) (s1 : Sess)
    (hp : s.pendingCmd = some c) (h : finishMoving s = .ok s1) :
    s.inBuf.take (c.length + 1) = c ++ [13] ∧
    s1 = { s with pendingCmd := none
                  inBuf := s.inBuf.drop (c.length + 1)
                  events := s.events ++ [Event.readEvt (c ++ [13])] } := by
  unfold finishMoving at h
  rw [hp] at h
  dsimp only at h
  by_cases hr : s.inBuf.take (c.length + 1) = c ++ [13]
  · rw [if_pos hr] at h
    by_cases hw : (s.inBuf.drop (c.length + 1)).length = 0
    · rw [if_pos hw] at h
      injection h with h2
      rw [hr] at h2
      exact ⟨hr, h2.symm⟩
    · rw [if_neg hw] at h
      exact absurd h (by simp)
  · rw [if_neg hr] at h
    exact absurd h (by simp)

/-- On the arithmetic in range, the bit-or of the claim agrees with
the addition of the source. -/
theorem encode_move_add_eq_or :
    ∀ ch < 2, ∀ sp < 8, ∀ pos < 10,
      (ch <<< 7) + (sp <<< 4) + pos = (ch <<< 7) ||| (sp <<< 4) ||| pos := by
  decide

/-- Reading the exact length of a well-formed echo returns all of it. -/
theorem take_echo (c : List Nat) :
    (c ++ [13]).take (c.length + 1) = c ++ [13] := by
  have h : (c ++ [13]).length = c.length + 1 := by simp
  rw [← h, List.take_length]

/-- After reading a well-formed echo nothing stays buffered. -/
theorem drop_echo (c : List Nat) :
    (c ++ [13]).drop (c.length + 1) = [] := by
  have h : (c ++ [13]).length = c.length + 1 := by simp
  rw [← h, List.drop_length]

/-! ### Claim theorems -/

/-- C1: the claim says an empty derived wheel and shutter set is a
fatal startup error for every construction, regardless of verbosity.
In the source the RuntimeError sits inside the `if self.verbose:`
block: with `verbose=False` the same all-disconnected configuration
initializes without any error, while `verbose=True` raises. -/
theorem init_empty_config_silent_without_verbose :
    (initController ("HHHHHWA-NCWB-NCWC-NCSA-VSSB-VS\r").toList
        false [] echoDevice).isOk = true ∧
    initController ("HHHHHWA-NCWB-NCWC-NCSA-VSSB-VS\r").toList
        true [] echoDevice = .error .noHardware :=
  ⟨rfl, rfl⟩

/-- C2: the claim says shutter sub-type "NC" is accepted (a frame with
"SA-NC" or "SB-NC" parses without error).  The source asserts
`s[3:] == 'IQ' or s[3:] == 'VS'`, so "NC" fails the unrecognized
shutter configuration assert for either shutter field. -/
theorem init_errors_on_shutter_NC :
    initController ("HHHHHWA-25WB-25WC-NCSA-NCSB-IQ\r").toList
        false [] echoDevice = .error .badShutterType ∧
    initController ("HHHHHWA-25WB-25WC-NCSA-IQSB-NC\r").toList
        false [] echoDevice = .error .badShutterType :=
  ⟨rfl, rfl⟩

/-- C3: the claim says that with only wheel B present, `move` on
channel B still records the target position.  The source sizes
`wheel_target_positions` as `[0]*len(self.wheels)` (length 1) but
indexes it with the channel number 1, so the assignment raises
IndexError after the command byte has already been written. -/
theorem move_indexError_with_only_wheelB :
    move 3 (.istr "B") 6 true ⟨[1], [], none, [0], [], echoDevice, []⟩ =
      MRes.err .indexError
        ⟨[1], [], some [227], [0], [227, 13], echoDevice,
         [Event.writeEvt [227]]⟩ := by
  rfl

/-- C7: a 36-byte configuration response is always rejected with the
shutter-C error before any parsing, every length other than 31 is
rejected, and a well-formed 31-byte frame is accepted. -/
theorem config_length_check :
    ∀ (cfg : List Char) (v : Bool) (buf : List Nat)
      (f : List Nat → List Nat),
      (cfg.length = 36 →
        initController cfg v buf f = .error .shutterCUnsupported) ∧
      (cfg.length ≠ 31 → (initController cfg v buf f).isOk = false) ∧
      (initController ("HHHHHWA-NCWB-NCWC-NCSA-IQSB-VS\r").toList
          false [] echoDevice).isOk = true := by
  intro cfg v buf f
  refine ⟨fun h36 => ?_, fun hne => ?_, by rfl⟩
  · simp [initController, h36]
  · by_cases h36 : cfg.length = 36
    · simp only [initController, h36, if_pos]
      rfl
    · simp only [initController]
      rw [if_neg h36, if_pos hne]
      rfl

/-- Witness for C7 at concrete frames of length 36 and 30. -/
theorem config_length_check_witness :
    initController (List.replicate 36 'x') false [] echoDevice =
      .error .shutterCUnsupported ∧
    (initController (List.replicate 30 'x') false [] echoDevice).isOk =
      false :=
  ⟨(config_length_check (List.replicate 36 'x') false [] echoDevice).1
      (by decide),
   (config_length_check (List.replicate 30 'x') false [] echoDevice).2.1
      (by decide)⟩

/-- C8: with no pending command, `finishMoving` is a no-op returning
the state untouched (in particular no read event is logged); with a
pending command it reads exactly `len+1` bytes, succeeds precisely
when they are the command followed by a carriage return and nothing
stays buffered, clears the pending slot on success, raises the
unexpected-response error on a mismatch, and raises the residual-bytes
error when unread bytes remain after a matching echo. -/
theorem finishMoving_spec :
    ∀ (s : Sess) (c : List Nat),
      (s.pendingCmd = none → finishMoving s = .ok s) ∧
      (s.pendingCmd = some c →
        (s.inBuf.take (c.length + 1) = c ++ [13] →
         s.inBuf.drop (c.length + 1) = [] →
          finishMoving s = MRes.ok
            { s with pendingCmd := none
                     inBuf := s.inBuf.drop (c.length + 1)
                     events := s.events ++ [Event.readEvt (c ++ [13])] }) ∧
        (s.inBuf.take (c.length + 1) ≠ c ++ [13] →
          finishMoving s = MRes.err .unexpectedResponse
            { s with inBuf := s.inBuf.drop (c.length + 1)
                     events := s.events ++
                       [Event.readEvt (s.inBuf.take (c.length + 1))] }) ∧
        (s.inBuf.take (c.length + 1) = c ++ [13] →
         s.inBuf.drop (c.length + 1) ≠ [] →
          finishMoving s = MRes.err .residualBytes
            { s with pendingCmd := none
                     inBuf := s.inBuf.drop (c.length + 1)
                     events := s.events ++
                       [Event.readEvt (c ++ [13])] })) := by
  intro s c
  constructor
  · intro h
    unfold finishMoving
    rw [h]
  · intro hp
    refine ⟨fun hr hd => ?_, fun hr => ?_, fun hr hd => ?_⟩
    · unfold finishMoving
      rw [hp]
      dsimp only
      rw [if_pos hr, if_pos (by rw [hd]; rfl), hr]
    · unfold finishMoving
      rw [hp]
      dsimp only
      rw [if_neg hr]
    · unfold finishMoving
      rw [hp]
      dsimp only
      rw [if_pos hr,
        if_neg (fun h0 => hd (List.length_eq_zero.mp h0)), hr]

/-- Witness for C8 at a concrete session: a no-op with nothing
pending, and a successful echo consumption of `0x63 0x0D`. -/
theorem finishMoving_spec_witness :
    finishMoving ⟨[0], [0], none, [0], [], echoDevice, []⟩ =
      .ok ⟨[0], [0], none, [0], [], echoDevice, []⟩ ∧
    finishMoving ⟨[0], [0], some [99], [3], [99, 13], echoDevice, []⟩ =
      MRes.ok ⟨[0], [0], none, [3], [], echoDevice,
               [Event.readEvt [99, 13]]⟩ :=
  ⟨(finishMoving_spec ⟨[0], [0], none, [0], [], echoDevice, []⟩ []).1 rfl,
   ((finishMoving_spec
       ⟨[0], [0], some [99], [3], [99, 13], echoDevice, []⟩ [99]).2
      rfl).1 (by decide) (by decide)⟩

/-- C9: `n2c` maps "A" to 0 and "B" to 1, returns numeric channels 0
and 1 unchanged, raises the invalid-identifier error on every other
input, and `c2n` inverts it on this domain. -/
theorem n2c_c2n_spec :
    n2c (.istr "A") = .ok 0 ∧ n2c (.istr "B") = .ok 1 ∧
    n2c (.inat 0) = .ok 0 ∧ n2c (.inat 1) = .ok 1 ∧
    (∀ x : PIdent, x ≠ .istr "A" → x ≠ .istr "B" →
      x ≠ .inat 0 → x ≠ .inat 1 → n2c x = .error .invalidId) ∧
    (n2c (.istr "A")).bind (fun n => c2n (.inat n)) = .ok (.istr "A") ∧
    (n2c (.istr "B")).bind (fun n => c2n (.inat n)) = .ok (.istr "B") ∧
    (∀ i : Nat, i = 0 ∨ i = 1 → (c2n (.inat i)).bind n2c = .ok i) := by
  refine ⟨rfl, rfl, rfl, rfl, ?_, rfl, rfl, ?_⟩
  · intro x h1 h2 h3 h4
    cases x with
    | istr s =>
        simp only [ne_eq, PIdent.istr.injEq] at h1 h2
        simp [n2c, h1, h2]
    | inat n =>
        simp only [ne_eq, PIdent.inat.injEq] at h3 h4
        simp [n2c, h3, h4]
  · intro i hi
    rcases hi with rfl | rfl <;> rfl

/-- Witness for C9: the invalid-input branch at "C" and the
roundtrip at channel 1. -/
theorem n2c_c2n_spec_witness :
    n2c (.istr "C") = .error .invalidId ∧
    (c2n (.inat 1)).bind n2c = .ok 1 :=
  ⟨n2c_c2n_spec.2.2.2.2.1 (.istr "C")
      (by decide) (by decide) (by decide) (by decide),
   n2c_c2n_spec.2.2.2.2.2.2.2 1 (Or.inr rfl)⟩

/-- C6: a valid move on a present wheel writes exactly the single byte
`(channel <<< 7) ||| (speed <<< 4) ||| position` (the source computes
it with `+`, which coincides on the valid ranges) and then consumes
the echo consisting of that byte followed by a carriage return. -/
theorem move_writes_encoded_byte_and_consumes_echo :
    ∀ (wheel : PIdent) (ch pos sp : Nat) (s : Sess),
      n2c wheel = .ok ch → pos < 10 → sp < 8 → s.pendingCmd = none →
      ch ∈ s.wheels → ch < s.wheelTargetPositions.length →
      s.inBuf = [] → s.respond = echoDevice →
      move pos wheel sp true s = MRes.ok
        { s with
          wheelTargetPositions := s.wheelTargetPositions.set ch pos
          inBuf := []
          events := s.events ++
            [Event.writeEvt [(ch <<< 7) ||| (sp <<< 4) ||| pos],
             Event.readEvt [(ch <<< 7) ||| (sp <<< 4) ||| pos, 13]] } := by
  intro wheel ch pos sp s hw hpos hsp hpend hmem hlen hbuf hresp
  have hb := encode_move_add_eq_or ch (n2c_ok_lt _ _ hw) sp hsp pos hpos
  obtain ⟨wh, shs, pc, wtp, ib, rsp, ev⟩ := s
  subst hpend hbuf hresp
  rw [← hb]
  unfold move
  rw [hw]
  dsimp only
  rw [if_pos hmem]
  simp only [Option.isSome_none, Bool.false_eq_true, if_false, MRes.bind,
    portWrite, echoDevice, List.nil_append]
  rw [if_pos hpos, if_pos hsp]
  rw [if_pos hlen]
  unfold finishMoving
  dsimp only
  rw [if_pos (take_echo _), drop_echo]
  simp

/-- Witness for C6: with wheel A present and a well-behaved device,
`move(3, "A", speed=6, block=true)` writes byte `0x63 = 99`, consumes
echo `0x63 0x0D` and records target position 3. -/
theorem move_writes_encoded_byte_and_consumes_echo_witness :
    move 3 (.istr "A") 6 true ⟨[0], [0], none, [0], [], echoDevice, []⟩ =
      MRes.ok ⟨[0], [0], none, [3], [], echoDevice,
               [Event.writeEvt [99], Event.readEvt [99, 13]]⟩ :=
  move_writes_encoded_byte_and_consumes_echo (.istr "A") 0 3 6
    ⟨[0], [0], none, [0], [], echoDevice, []⟩
    rfl (by decide) (by decide) rfl (by decide) (by decide) rfl rfl

/-- C10: the shutter-state argument accepts the numeric values 0 and 1
as aliases of "closed" and "open": on every session and channel the
numeric call behaves identically to the symbolic one, a closed command
encodes as `128+32+(ch<<4)+8+4` and an open one as
`128+32+(ch<<4)+8+2`, and any other state value is rejected with the
session state unchanged (so nothing was written). -/
theorem changeShutter_numeric_aliases :
    ∀ (state sh : PIdent) (b : Bool) (s : Sess) (c : Nat),
      (changeShutter (.inat 0) sh b s =
        changeShutter (.istr "closed") sh b s) ∧
      (changeShutter (.inat 1) sh b s =
        changeShutter (.istr "open") sh b s) ∧
      (c ∈ s.shutters → (c = 0 ∨ c = 1) → s.pendingCmd = none →
        changeShutter (.inat 0) (.inat c) false s = MRes.ok
          { s with
            pendingCmd := some [128 + 32 + (c <<< 4) + 8 + 4]
            inBuf := s.inBuf ++ s.respond [128 + 32 + (c <<< 4) + 8 + 4]
            events := s.events ++
              [Event.writeEvt [128 + 32 + (c <<< 4) + 8 + 4]] }) ∧
      (c ∈ s.shutters → (c = 0 ∨ c = 1) → s.pendingCmd = none →
        changeShutter (.inat 1) (.inat c) false s = MRes.ok
          { s with
            pendingCmd := some [128 + 32 + (c <<< 4) + 8 + 2]
            inBuf := s.inBuf ++ s.respond [128 + 32 + (c <<< 4) + 8 + 2]
            events := s.events ++
              [Event.writeEvt [128 + 32 + (c <<< 4) + 8 + 2]] }) ∧
      (state ≠ .istr "closed" → state ≠ .istr "open" →
       state ≠ .inat 0 → state ≠ .inat 1 →
        changeShutter state sh b s = .err .invalidId s ∨
        changeShutter state sh b s = .err .assertFailed s) := by
  intro state sh b s c
  refine ⟨?_, ?_, fun hmem hc hpend => ?_, fun hmem hc hpend => ?_,
    fun h1 h2 h3 h4 => ?_⟩
  · unfold changeShutter
    cases hn : n2c sh with
    | error e => rfl
    | ok w =>
        dsimp only
        by_cases hw : w ∈ s.shutters
        · rw [if_pos hw, if_pos hw,
            if_pos (show PIdent.inat 0 = PIdent.istr "closed" ∨
              PIdent.inat 0 = PIdent.istr "open" ∨
              PIdent.inat 0 = PIdent.inat 0 ∨
              PIdent.inat 0 = PIdent.inat 1 by decide),
            if_pos (show PIdent.istr "closed" = PIdent.istr "closed" ∨
              PIdent.istr "closed" = PIdent.istr "open" ∨
              PIdent.istr "closed" = PIdent.inat 0 ∨
              PIdent.istr "closed" = PIdent.inat 1 by decide)]
          simp only [eq_false (show ¬ (PIdent.inat 0 = PIdent.istr "open" ∨
              PIdent.inat 0 = PIdent.inat 1) by decide),
            eq_false (show ¬ (PIdent.istr "closed" = PIdent.istr "open" ∨
              PIdent.istr "closed" = PIdent.inat 1) by decide),
            if_false]
        · rw [if_neg hw, if_neg hw]
  · unfold changeShutter
    cases hn : n2c sh with
    | error e => rfl
    | ok w =>
        dsimp only
        by_cases hw : w ∈ s.shutters
        · rw [if_pos hw, if_pos hw,
            if_pos (show PIdent.inat 1 = PIdent.istr "closed" ∨
              PIdent.inat 1 = PIdent.istr "open" ∨
              PIdent.inat 1 = PIdent.inat 0 ∨
              PIdent.inat 1 = PIdent.inat 1 by decide),
            if_pos (show PIdent.istr "open" = PIdent.istr "closed" ∨
              PIdent.istr "open" = PIdent.istr "open" ∨
              PIdent.istr "open" = PIdent.inat 0 ∨
              PIdent.istr "open" = PIdent.inat 1 by decide)]
          simp only [or_true, true_or, if_true]
        · rw [if_neg hw, if_neg hw]
  · rcases hc with rfl | rfl <;>
      simp [changeShutter, n2c, portWrite, MRes.bind, hmem, hpend]
  · rcases hc with rfl | rfl <;>
      simp [changeShutter, n2c, portWrite, MRes.bind, hmem, hpend]
  · cases hn : n2c sh with
    | error e =>
        left
        unfold changeShutter
        rw [hn, n2c_error_eq _ _ hn]
    | ok w =>
        right
        unfold changeShutter
        rw [hn]
        dsimp only
        by_cases hw : w ∈ s.shutters
        · have hst : ¬ (state = PIdent.istr "closed" ∨
              state = PIdent.istr "open" ∨
              state = PIdent.inat 0 ∨ state = PIdent.inat 1) := by
            rintro (h | h | h | h)
            exacts [h1 h, h2 h, h3 h, h4 h]
          rw [if_pos hw, if_neg hst]
        · rw [if_neg hw]

/-- Witness for C10: closing shutter B by the numeric alias 0 writes
byte `128+32+16+8+4 = 188`, exactly as "closed" would. -/
theorem changeShutter_numeric_aliases_witness :
    changeShutter (.inat 0) (.inat 1) false
        ⟨[], [0, 1], none, [], [], echoDevice, []⟩ =
      MRes.ok ⟨[], [0, 1], some [188], [], [188, 13], echoDevice,
               [Event.writeEvt [188]]⟩ ∧
    (changeShutter (.inat 7) (.inat 1) false
        ⟨[], [0, 1], none, [], [], echoDevice, []⟩ =
      MRes.err .invalidId ⟨[], [0, 1], none, [], [], echoDevice, []⟩ ∨
     changeShutter (.inat 7) (.inat 1) false
        ⟨[], [0, 1], none, [], [], echoDevice, []⟩ =
      MRes.err .assertFailed ⟨[], [0, 1], none, [], [], echoDevice, []⟩) :=
  ⟨(changeShutter_numeric_aliases (.inat 0) (.inat 1) false
      ⟨[], [0, 1], none, [], [], echoDevice, []⟩ 1).2.2.1
      (by decide) (Or.inr rfl) rfl,
   (changeShutter_numeric_aliases (.inat 7) (.inat 1) false
      ⟨[], [0, 1], none, [], [], echoDevice, []⟩ 1).2.2.2.2
      (by decide) (by decide) (by decide) (by decide)⟩

/-- C5: when any public operation (move, change shutter, set shutter
mode) completes successfully while a command was pending on entry, the
prior command's echo is consumed first and only then are the new
command's bytes written: the event log continues with the read of the
prior echo immediately followed by the new write (followed only by
events of the operation's own completion). -/
theorem pending_echo_consumed_before_next_write :
    ∀ (s s' : Sess) (c : List Nat) (pos sp : Nat)
      (w st sh : PIdent) (md : String) (bl : Bool),
      s.pendingCmd = some c →
      ((move pos w sp bl s = MRes.ok s' →
          ∃ bts rest, s'.events =
            s.events ++ Event.readEvt (c ++ [13]) ::
              Event.writeEvt bts :: rest) ∧
       (changeShutter st sh bl s = MRes.ok s' →
          ∃ bts rest, s'.events =
            s.events ++ Event.readEvt (c ++ [13]) ::
              Event.writeEvt bts :: rest) ∧
       (setShutterMode md sh bl s = MRes.ok s' →
          ∃ bts rest, s'.events =
            s.events ++ Event.readEvt (c ++ [13]) ::
              Event.writeEvt bts :: rest)) := by
  intro s s' c pos sp w st sh md bl hp
  refine ⟨fun h => ?_, fun h => ?_, fun h => ?_⟩
  · unfold move at h
    cases hn : n2c w with
    | error e => rw [hn] at h; exact absurd h (by simp)
    | ok wch =>
        rw [hn] at h
        dsimp only at h
        by_cases hmem : wch ∈ s.wheels
        · rw [if_pos hmem,
            if_pos (show s.pendingCmd.isSome = true by rw [hp]; rfl)] at h
          obtain ⟨s1, hfin, h2⟩ := MRes.bind_ok_inv _ _ _ h
          obtain ⟨hread, hs1⟩ := finishMoving_ok_inv s c s1 hp hfin
          subst hs1
          dsimp only [portWrite] at h2
          by_cases hpos : pos < 10
          · rw [if_pos hpos] at h2
            by_cases hsp : sp < 8
            · rw [if_pos hsp] at h2
              by_cases hidx : wch < s.wheelTargetPositions.length
              · rw [if_pos hidx] at h2
                cases bl with
                | false =>
                    rw [if_neg Bool.false_ne_true] at h2
                    injection h2 with h3
                    subst h3
                    refine ⟨[wch <<< 7 + sp <<< 4 + pos], [], ?_⟩
                    simp
                | true =>
                    rw [if_pos rfl] at h2
                    obtain ⟨hread2, hs2⟩ :=
                      finishMoving_ok_inv _ _ _ rfl h2
                    subst hs2
                    refine ⟨[wch <<< 7 + sp <<< 4 + pos],
                      [Event.readEvt ([wch <<< 7 + sp <<< 4 + pos] ++ [13])],
                      ?_⟩
                    simp
              · rw [if_neg hidx] at h2; exact absurd h2 (by simp)
            · rw [if_neg hsp] at h2; exact absurd h2 (by simp)
          · rw [if_neg hpos] at h2; exact absurd h2 (by simp)
        · rw [if_neg hmem] at h; exact absurd h (by simp)
  · unfold changeShutter at h
    cases hn : n2c sh with
    | error e => rw [hn] at h; exact absurd h (by simp)
    | ok shc =>
        rw [hn] at h
        dsimp only at h
        by_cases hmem : shc ∈ s.shutters
        · rw [if_pos hmem] at h
          by_cases hst : st = PIdent.istr "closed" ∨
              st = PIdent.istr "open" ∨
              st = PIdent.inat 0 ∨ st = PIdent.inat 1
          · rw [if_pos hst,
              if_pos (show s.pendingCmd.isSome = true by rw [hp]; rfl)] at h
            obtain ⟨s1, hfin, h2⟩ := MRes.bind_ok_inv _ _ _ h
            obtain ⟨hread, hs1⟩ := finishMoving_ok_inv s c s1 hp hfin
            subst hs1
            dsimp only [portWrite] at h2
            cases bl with
            | false =>
                rw [if_neg Bool.false_ne_true] at h2
                injection h2 with h3
                subst h3
                refine ⟨(if st = PIdent.istr "open" ∨ st = PIdent.inat 1
                  then [128 + 32 + (shc <<< 4) + 8 + 2]
                  else [128 + 32 + (shc <<< 4) + 8 + 4]), [], ?_⟩
                simp
            | true =>
                rw [if_pos rfl] at h2
                obtain ⟨hread2, hs2⟩ := finishMoving_ok_inv _ _ _ rfl h2
                subst hs2
                refine ⟨(if st = PIdent.istr "open" ∨ st = PIdent.inat 1
                  then [128 + 32 + (shc <<< 4) + 8 + 2]
                  else [128 + 32 + (shc <<< 4) + 8 + 4]),
                  [Event.readEvt ((if st = PIdent.istr "open" ∨
                      st = PIdent.inat 1
                    then [128 + 32 + (shc <<< 4) + 8 + 2]
                    else [128 + 32 + (shc <<< 4) + 8 + 4]) ++ [13])], ?_⟩
                simp
          · rw [if_neg hst] at h; exact absurd h (by simp)
        · rw [if_neg hmem] at h; exact absurd h (by simp)
  · unfold setShutterMode at h
    cases hn : n2c sh with
    | error e => rw [hn] at h; exact absurd h (by simp)
    | ok shc =>
        rw [hn] at h
        dsimp only at h
        by_cases hmem : shc ∈ s.shutters
        · rw [if_pos hmem] at h
          by_cases hmd : md = "fast" ∨ md = "soft"
          · rw [if_pos hmd,
              if_pos (show s.pendingCmd.isSome = true by rw [hp]; rfl)] at h
            obtain ⟨s1, hfin, h2⟩ := MRes.bind_ok_inv _ _ _ h
            obtain ⟨hread, hs1⟩ := finishMoving_ok_inv s c s1 hp hfin
            subst hs1
            dsimp only [portWrite] at h2
            cases bl with
            | false =>
                rw [if_neg Bool.false_ne_true] at h2
                injection h2 with h3
                subst h3
                refine ⟨(if md = "fast" then [220, shc + 1]
                  else [221, shc + 1]), [], ?_⟩
                simp
            | true =>
                rw [if_pos rfl] at h2
                obtain ⟨hread2, hs2⟩ := finishMoving_ok_inv _ _ _ rfl h2
                subst hs2
                refine ⟨(if md = "fast" then [220, shc + 1]
                  else [221, shc + 1]),
                  [Event.readEvt ((if md = "fast" then [220, shc + 1]
                    else [221, shc + 1]) ++ [13])], ?_⟩
                simp
          · rw [if_neg hmd] at h; exact absurd h (by simp)
        · rw [if_neg hmem] at h; exact absurd h (by simp)

/-- Witness for C5: with command `0x63 = 99` pending and its echo
buffered, `move(2, 0, speed=6, block=false)` first reads the echo
`99 13` and then writes the new byte `98`. -/
theorem pending_echo_consumed_before_next_write_witness :
    ∃ bts rest,
      ([Event.readEvt [99, 13], Event.writeEvt [98]] : List Event) =
        [] ++ Event.readEvt ([99] ++ [13]) :: Event.writeEvt bts :: rest :=
  (pending_echo_consumed_before_next_write
      ⟨[0], [0], some [99], [0], [99, 13], echoDevice, []⟩
      ⟨[0], [0], some [98], [2], [98, 13], echoDevice,
       [Event.readEvt [99, 13], Event.writeEvt [98]]⟩
      [99] 2 6 (.inat 0) (.inat 0) (.inat 0) "x" false rfl).1 rfl

/-- C4 counterexample: with command byte 99 pending and its echo
buffered, calling `move` with the out-of-range position 10 on a
present wheel is NOT rejected before transport I/O with state
unchanged: the source runs `_finish_moving()` before the position
assert, so the echo is read (a transport read occurs) and the
PendingCommand slot is cleared before the invalid-argument error. -/
theorem move_invalid_position_after_pending_reads_echo :
    move 10 (.inat 0) 6 true
        ⟨[0], [0], some [99], [0], [99, 13], echoDevice, []⟩ =
      MRes.err .assertFailed
        ⟨[0], [0], none, [0], [], echoDevice,
         [Event.readEvt [99, 13]]⟩ := by
  rfl

/-- C4 amended: an invalid argument never causes a transport write.
A bad channel identifier, a channel outside the present set, an
unrecognized shutter state or mode, and — when no command is pending —
an out-of-range position or speed are all rejected before any
transport I/O with the session state returned untouched.  The one
exception forced by the counterexample: in `move`, position and speed
are validated only after an outstanding command is force-completed,
so with a command pending the out-of-range error is raised after the
prior echo has been read and the pending slot cleared (still before
any write). -/
theorem invalid_args_never_write :
    ∀ (s : Sess) (pos sp : Nat) (w st sh : PIdent) (md : String)
      (b : Bool) (c : List Nat) (wch shc : Nat),
      (n2c w = .error .invalidId →
        move pos w sp b s = .err .invalidId s) ∧
      (n2c w = .ok wch → wch ∉ s.wheels →
        move pos w sp b s = .err .assertFailed s) ∧
      (s.pendingCmd = none → n2c w = .ok wch → wch ∈ s.wheels →
        ¬ pos < 10 → move pos w sp b s = .err .assertFailed s) ∧
      (s.pendingCmd = none → n2c w = .ok wch → wch ∈ s.wheels →
        pos < 10 → ¬ sp < 8 →
        move pos w sp b s = .err .assertFailed s) ∧
      (n2c sh = .error .invalidId →
        changeShutter st sh b s = .err .invalidId s ∧
        setShutterMode md sh b s = .err .invalidId s) ∧
      (n2c sh = .ok shc → shc ∉ s.shutters →
        changeShutter st sh b s = .err .assertFailed s ∧
        setShutterMode md sh b s = .err .assertFailed s) ∧
      (n2c sh = .ok shc → shc ∈ s.shutters →
        st ≠ .istr "closed" → st ≠ .istr "open" → st ≠ .inat 0 →
        st ≠ .inat 1 → changeShutter st sh b s = .err .assertFailed s) ∧
      (n2c sh = .ok shc → shc ∈ s.shutters → md ≠ "fast" →
        md ≠ "soft" → setShutterMode md sh b s = .err .assertFailed s) ∧
      (s.pendingCmd = some c → s.inBuf = c ++ [13] → n2c w = .ok wch →
        wch ∈ s.wheels → ¬ pos < 10 →
        move pos w sp b s = MRes.err .assertFailed
          { s with pendingCmd := none
                   inBuf := []
                   events := s.events ++ [Event.readEvt (c ++ [13])] }) ∧
      (s.pendingCmd = some c → s.inBuf = c ++ [13] → n2c w = .ok wch →
        wch ∈ s.wheels → pos < 10 → ¬ sp < 8 →
        move pos w sp b s = MRes.err .assertFailed
          { s with pendingCmd := none
                   inBuf := []
                   events := s.events ++ [Event.readEvt (c ++ [13])] }) := by
  intro s pos sp w st sh md b c wch shc
  refine ⟨fun h => ?_, fun hn hmem => ?_, fun hpend hn hmem hpos => ?_,
    fun hpend hn hmem hpos hsp => ?_, fun h => ⟨?_, ?_⟩,
    fun hn hmem => ⟨?_, ?_⟩, fun hn hmem h1 h2 h3 h4 => ?_,
    fun hn hmem h1 h2 => ?_, fun hpend hbuf hn hmem hpos => ?_,
    fun hpend hbuf hn hmem hpos hsp => ?_⟩
  · unfold move
    rw [h]
  · unfold move
    rw [hn]
    dsimp only
    rw [if_neg hmem]
  · unfold move
    rw [hn]
    dsimp only
    rw [if_pos hmem]
    simp only [hpend, Option.isSome_none, Bool.false_eq_true, if_false,
      MRes.bind]
    rw [if_neg hpos]
  · unfold move
    rw [hn]
    dsimp only
    rw [if_pos hmem]
    simp only [hpend, Option.isSome_none, Bool.false_eq_true, if_false,
      MRes.bind]
    rw [if_pos hpos, if_neg hsp]
  · unfold changeShutter
    rw [h]
  · unfold setShutterMode
    rw [h]
  · unfold changeShutter
    rw [hn]
    dsimp only
    rw [if_neg hmem]
  · unfold setShutterMode
    rw [hn]
    dsimp only
    rw [if_neg hmem]
  · unfold changeShutter
    rw [hn]
    dsimp only
    have hst : ¬ (st = PIdent.istr "closed" ∨ st = PIdent.istr "open" ∨
        st = PIdent.inat 0 ∨ st = PIdent.inat 1) := by
      rintro (hx | hx | hx | hx)
      exacts [h1 hx, h2 hx, h3 hx, h4 hx]
    rw [if_pos hmem, if_neg hst]
  · unfold setShutterMode
    rw [hn]
    dsimp only
    have hmd : ¬ (md = "fast" ∨ md = "soft") := by
      rintro (hx | hx)
      exacts [h1 hx, h2 hx]
    rw [if_pos hmem, if_neg hmd]
  · unfold move
    rw [hn]
    dsimp only
    rw [if_pos hmem,
      if_pos (show s.pendingCmd.isSome = true by rw [hpend]; rfl)]
    unfold finishMoving
    rw [hpend]
    dsimp only
    rw [hbuf, take_echo, drop_echo]
    rw [if_pos rfl,
      if_pos (show ([] : List Nat).length = 0 from rfl)]
    dsimp only [MRes.bind]
    rw [if_neg hpos]
  · unfold move
    rw [hn]
    dsimp only
    rw [if_pos hmem,
      if_pos (show s.pendingCmd.isSome = true by rw [hpend]; rfl)]
    unfold finishMoving
    rw [hpend]
    dsimp only
    rw [hbuf, take_echo, drop_echo]
    rw [if_pos rfl,
      if_pos (show ([] : List Nat).length = 0 from rfl)]
    dsimp only [MRes.bind]
    rw [if_pos hpos, if_neg hsp]

/-- Witness for C4 at concrete inputs: a bad channel name is rejected
with the session untouched, and with a pending command an out-of-range
position (and an out-of-range speed) errors only after the echo
read. -/
theorem invalid_args_never_write_witness :
    move 5 (.istr "Q") 6 true ⟨[0], [0], none, [0], [], echoDevice, []⟩ =
      MRes.err .invalidId ⟨[0], [0], none, [0], [], echoDevice, []⟩ ∧
    move 10 (.inat 0) 6 false
        ⟨[0], [0], some [99], [0], [99, 13], echoDevice, []⟩ =
      MRes.err .assertFailed
        ⟨[0], [0], none, [0], [], echoDevice,
         [Event.readEvt [99, 13]]⟩ ∧
    move 3 (.inat 0) 9 false
        ⟨[0], [0], some [99], [0], [99, 13], echoDevice, []⟩ =
      MRes.err .assertFailed
        ⟨[0], [0], none, [0], [], echoDevice,
         [Event.readEvt [99, 13]]⟩ :=
  ⟨(invalid_args_never_write ⟨[0], [0], none, [0], [], echoDevice, []⟩
      5 6 (.istr "Q") (.inat 0) (.inat 0) "x" true [] 0 0).1 rfl,
   (invalid_args_never_write
      ⟨[0], [0], some [99], [0], [99, 13], echoDevice, []⟩
      10 6 (.inat 0) (.inat 0) (.inat 0) "x" false [99] 0
      0).2.2.2.2.2.2.2.2.1 rfl rfl rfl (by decide) (by decide),
   (invalid_args_never_write
      ⟨[0], [0], some [99], [0], [99, 13], echoDevice, []⟩
      3 9 (.inat 0) (.inat 0) (.inat 0) "x" false [99] 0
      0).2.2.2.2.2.2.2.2.2 rfl rfl rfl (by decide) (by decide)
      (by decide)⟩

end Sutter
